import Mathlib

/-!
Verification of the adaptive image resizer/compressor of POPKO-PHONE
(`src/filesync-bridge.js`). The file embeds, as executable Lean
definitions, the dimension algorithm `ImageOptimizer.calculateOptimalSize`,
the statistics update `ImageOptimizer.updateMetrics`, the input check
`FileValidator.validate`, and the composition of validation, decode,
resize and encode performed by `VisualBridge.processVisualFile` /
`ImageOptimizer.optimizeImage`. JavaScript numbers are modelled by exact
rationals, `Math.floor` by `Int.floor`, byte counts by naturals, and the
two external asynchronous steps (the browser decoding the file bytes into
a bitmap, and `canvas.toDataURL` producing the encoded payload) by
explicit oracle parameters, since their outcomes are not computed by the
repository's own code.
-/

namespace PopkoPhone

/-- Output of `calculateOptimalSize`: the `{ width, height }` record it
returns. Both fields are rationals because the source either passes the
original (numeric) dimensions through or stores `Math.floor` results. -/
structure Dimensions where
  width : ℚ
  height : ℚ
deriving DecidableEq

/-- Embedding of `ImageOptimizer.calculateOptimalSize(width, height,
maxSize, mode)` (src/filesync-bridge.js lines 1655 to 1690, identical to
the first copy at lines 152 to 187). The mode is kept as a string because
the source dispatches on string equality with `speed` and `quality` and
sends every other mode, the default `smart` included, to the final else
branch. -/
def calculateOptimalSize (width height maxSize : ℚ) (mode : String) : Dimensions :=
  if mode = "speed" ∧ (width > maxSize ∨ height > maxSize) then
    let ratio := min (maxSize / width) (maxSize / height)
    ⟨(⌊width * ratio⌋ : ℚ), (⌊height * ratio⌋ : ℚ)⟩
  else if mode = "quality" then
    let ratio := min (maxSize * 1.2 / width) (maxSize * 1.2 / height)
    if ratio < 1 then
      ⟨(⌊width * ratio⌋ : ℚ), (⌊height * ratio⌋ : ℚ)⟩
    else
      ⟨width, height⟩
  else
    let aspectRatio := width / height
    if aspectRatio > 2 ∨ aspectRatio < 0.5 then
      let ratio := min (maxSize / width) (maxSize / height)
      if ratio < 1 then
        ⟨(⌊width * ratio⌋ : ℚ), (⌊height * ratio⌋ : ℚ)⟩
      else
        ⟨width, height⟩
    else
      let ratio := min (maxSize / width) (maxSize / height)
      ⟨(⌊width * ratio⌋ : ℚ), (⌊height * ratio⌋ : ℚ)⟩

/-- The `this.metrics` record of `ImageOptimizer` (src/filesync-bridge.js
lines 1597 to 1601): running count, total bytes saved, running average
compression percentage. -/
structure Metrics where
  processed : ℕ
  totalSaved : ℚ
  avgCompressionRatio : ℚ
deriving DecidableEq

/-- The fields of the `pluginConfig` settings bag that the resize core
reads (src/filesync-bridge.js lines 1546 to 1556). -/
structure Config where
  optimizationMode : String
  qualityLevel : ℚ
  maxDimension : ℚ
  fileLimit : ℕ
  formatSupport : List String
  enableMetrics : Bool
deriving DecidableEq

/-- The default `pluginConfig` values from src/filesync-bridge.js lines
1546 to 1556. -/
def pluginConfig : Config :=
  { optimizationMode := "smart"
    qualityLevel := 85
    maxDimension := 2048
    fileLimit := 20
    formatSupport := ["image/jpeg", "image/png", "image/webp", "image/gif"]
    enableMetrics := true }

/-- Embedding of `ImageOptimizer.updateMetrics(originalSize,
optimizedSize)` (src/filesync-bridge.js lines 1718 to 1728): a no-op when
metrics are disabled, otherwise increments the count, accumulates the
byte saving, and folds the percentage reduction into the running
average. -/
def updateMetrics (cfg : Config) (m : Metrics) (originalSize optimizedSize : ℚ) : Metrics :=
  if !cfg.enableMetrics then m
  else
    let processed := m.processed + 1
    let saved := originalSize - optimizedSize
    let compressionRatio := saved / originalSize * 100
    { processed := processed
      totalSaved := m.totalSaved + saved
      avgCompressionRatio :=
        (m.avgCompressionRatio * ((processed : ℚ) - 1) + compressionRatio) / (processed : ℚ) }

/-- The percentage size reduction used by `updateMetrics`:
`(original - encoded) / original * 100`. -/
def compressionPct (original encoded : ℚ) : ℚ :=
  (original - encoded) / original * 100

/-- The duck-typed file object as seen by the validator: a MIME type
string and a byte length (`file.type`, `file.size`). -/
structure VFile where
  type : String
  size : ℕ
deriving DecidableEq

/-- The error kinds of the resize core. Each constructor corresponds to
distinct throw sites in the source, distinguished there by their message
strings: `unsupportedFormat` covers the two MIME checks of
`FileValidator.validate` (lines 1784 and 1788), `sizeLimitExceeded` the
byte-length check (line 1794), and `decodeError` the `image.onerror`
rejection of `ImageOptimizer.optimizeImage` (line 1648). The source has
no distinct encode-failure throw site: `canvas.toDataURL` is modelled as
total. -/
inductive BridgeError where
  | unsupportedFormat
  | sizeLimitExceeded
  | decodeError
deriving DecidableEq

/-- The test `file.type.startsWith('image/')`, expressed on the
character lists underlying the strings (same semantics, and reducible by
the kernel). -/
def hasImageMime (ty : String) : Bool :=
  "image/".data.isPrefixOf ty.data

/-- Embedding of the image branch of `FileValidator.validate(file)`
(src/filesync-bridge.js lines 1780 to 1797). The initial
`typeof file !== 'object'` guard has no counterpart for a typed file
record; the `!file.type` falsiness test is subsumed by the
MIME-starts-with-image test, which is false on the empty string. The
source throws; here each throw site becomes an `Except.error`. -/
def FileValidator.validate (cfg : Config) (file : VFile) : Except BridgeError Unit :=
  if ¬ hasImageMime file.type then .error .unsupportedFormat
  else if file.type ∉ cfg.formatSupport then .error .unsupportedFormat
  else if file.size > cfg.fileLimit * 1024 * 1024 then .error .sizeLimitExceeded
  else .ok ()

/-- The decoded bitmap handed to `image.onload`: its pixel dimensions
(`image.width`, `image.height`). -/
structure ImgBitmap where
  width : ℕ
  height : ℕ
deriving DecidableEq

/-- Observable trace of one resize call: whether the decode step started,
whether the encode plus statistics step ran, and the metrics state after
the call. -/
structure RunTrace where
  decodeAttempted : Bool
  encodeAttempted : Bool
  metrics : Metrics
deriving DecidableEq

/-- Embedding of the resize pipeline: `VisualBridge.processVisualFile`
(src/filesync-bridge.js lines 1877 to 1898) runs `FileValidator.validate`
and only then `ImageOptimizer.optimizeImage` (lines 1617 to 1651), which
decodes, computes `calculateOptimalSize`, draws, encodes with
`canvas.toDataURL`, and calls `updateMetrics(file.size,
optimizedData.length)`. `decodeResult` is the decode oracle (`none`
models `image.onerror`); `encodedLength` is the length of the data URL
produced by the encode oracle. The surrounding glue guards (`isReady`,
`pluginConfig.active`, context fetch, storage) are outside the core. -/
def resizeCore (cfg : Config) (file : VFile) (decodeResult : Option ImgBitmap)
    (encodedLength : ℕ) (m : Metrics) : Except BridgeError Dimensions × RunTrace :=
  match FileValidator.validate cfg file with
  | .error e => (.error e, ⟨false, false, m⟩)
  | .ok _ =>
    match decodeResult with
    | none => (.error .decodeError, ⟨true, false, m⟩)
    | some img =>
      let dims :=
        calculateOptimalSize (img.width : ℚ) (img.height : ℚ) cfg.maxDimension cfg.optimizationMode
      let m2 := updateMetrics cfg m (file.size : ℚ) (encodedLength : ℚ)
      (.ok dims, ⟨true, true, m2⟩)

/-- Folding `updateMetrics` over a batch of (originalSize, optimizedSize)
pairs, starting from a given metrics state. -/
def runMetrics (cfg : Config) (m : Metrics) (l : List (ℚ × ℚ)) : Metrics :=
  List.foldl (fun acc p => updateMetrics cfg acc p.1 p.2) m l

/-- The zero metrics record `ImageOptimizer`'s constructor installs. -/
def initMetrics : Metrics := ⟨0, 0, 0⟩

/-- C1: for every image whose aspect ratio `width / height` lies strictly
between 0.5 and 2, the balanced (`smart`) strategy of
`calculateOptimalSize` returns exactly
`(floor(width * r), floor(height * r))` with
`r = min(maxDimension / width, maxDimension / height)`, the ratio applied
unconditionally, upscaling included when `r > 1`. -/
theorem claim_C1_balanced_normal_unconditional (w h M : ℚ)
    (hw : 0 < w) (hh : 0 < h) (h1 : 0.5 < w / h) (h2 : w / h < 2) :
    calculateOptimalSize w h M "smart" =
      ⟨(⌊w * min (M / w) (M / h)⌋ : ℚ), (⌊h * min (M / w) (M / h)⌋ : ℚ)⟩ := by
  have hmode1 : ¬(("smart" : String) = "speed" ∧ (w > M ∨ h > M)) := by
    rintro ⟨hc, -⟩
    exact absurd hc (by decide)
  have hmode2 : ¬(("smart" : String) = "quality") := by decide
  have hx : ¬((w / h : ℚ) > 2 ∨ w / h < 0.5) := by
    push_neg
    exact ⟨h2.le, h1.le⟩
  simp only [calculateOptimalSize, if_neg hmode1, if_neg hmode2, if_neg hx]

/-- Witness for C1 at a 100 by 100 image with `maxDimension = 2048`: the
ratio is `20.48 > 1` and the smart strategy upscales to 2048 by 2048. -/
theorem claim_C1_witness :
    (0 : ℚ) < 100 ∧ (0.5 : ℚ) < 100 / 100 ∧ (100 : ℚ) / 100 < 2 ∧
    calculateOptimalSize 100 100 2048 "smart" = ⟨2048, 2048⟩ := by
  refine ⟨by norm_num, by norm_num, by norm_num, ?_⟩
  rw [claim_C1_balanced_normal_unconditional 100 100 2048 (by norm_num) (by norm_num)
    (by norm_num) (by norm_num)]
  norm_num [min_def]

/-- C2: for every image with `max(width, height) > maxDimension`, the
`speed` strategy returns dimensions scaled by exactly
`r = min(maxDimension / width, maxDimension / height)` and floored, each
output dimension lying within one unit below the exact scaled value. -/
theorem claim_C2_speed_oversized (w h M : ℚ) (hw : 0 < w) (hh : 0 < h)
    (hover : M < max w h) :
    calculateOptimalSize w h M "speed" =
      ⟨(⌊w * min (M / w) (M / h)⌋ : ℚ), (⌊h * min (M / w) (M / h)⌋ : ℚ)⟩ ∧
    w * min (M / w) (M / h) - 1 < (⌊w * min (M / w) (M / h)⌋ : ℚ) ∧
    ((⌊w * min (M / w) (M / h)⌋ : ℚ)) ≤ w * min (M / w) (M / h) ∧
    h * min (M / w) (M / h) - 1 < (⌊h * min (M / w) (M / h)⌋ : ℚ) ∧
    ((⌊h * min (M / w) (M / h)⌋ : ℚ)) ≤ h * min (M / w) (M / h) := by
  have hc : ("speed" : String) = "speed" ∧ (w > M ∨ h > M) := by
    refine ⟨rfl, ?_⟩
    rcases lt_max_iff.mp hover with hc | hc
    exacts [Or.inl hc, Or.inr hc]
  refine ⟨?_, Int.sub_one_lt_floor _, Int.floor_le _, Int.sub_one_lt_floor _, Int.floor_le _⟩
  simp only [calculateOptimalSize]
  rw [if_pos (show True ∧ (w > M ∨ h > M) from ⟨trivial, hc.2⟩)]

/-- Witness for C2 at the spec scenario: a 4000 by 2000 image with
`maxDimension = 2048` and strategy `speed` yields 2048 by 1024. -/
theorem claim_C2_witness :
    (2048 : ℚ) < max 4000 2000 ∧
    calculateOptimalSize 4000 2000 2048 "speed" = ⟨2048, 1024⟩ := by
  refine ⟨by norm_num, ?_⟩
  rw [(claim_C2_speed_oversized 4000 2000 2048 (by norm_num) (by norm_num) (by norm_num)).1]
  norm_num [min_def, Int.floor_eq_iff]

/-- C3: the `quality` strategy computes
`r = min(1.2 * maxDimension / width, 1.2 * maxDimension / height)` and
applies it only when `r < 1`; the output dimensions never exceed the
input dimensions and never exceed `1.2 * maxDimension`. -/
theorem claim_C3_quality_caps (w h M : ℚ) (hw : 0 < w) (hh : 0 < h) :
    (min (M * 1.2 / w) (M * 1.2 / h) < 1 →
      calculateOptimalSize w h M "quality" =
        ⟨(⌊w * min (M * 1.2 / w) (M * 1.2 / h)⌋ : ℚ),
         (⌊h * min (M * 1.2 / w) (M * 1.2 / h)⌋ : ℚ)⟩) ∧
    (¬ min (M * 1.2 / w) (M * 1.2 / h) < 1 →
      calculateOptimalSize w h M "quality" = ⟨w, h⟩) ∧
    (calculateOptimalSize w h M "quality").width ≤ w ∧
    (calculateOptimalSize w h M "quality").height ≤ h ∧
    (calculateOptimalSize w h M "quality").width ≤ 1.2 * M ∧
    (calculateOptimalSize w h M "quality").height ≤ 1.2 * M := by
  have hq : calculateOptimalSize w h M "quality" =
      if min (M * 1.2 / w) (M * 1.2 / h) < 1 then
        (⟨(⌊w * min (M * 1.2 / w) (M * 1.2 / h)⌋ : ℚ),
          (⌊h * min (M * 1.2 / w) (M * 1.2 / h)⌋ : ℚ)⟩ : Dimensions)
      else ⟨w, h⟩ := by
    have hmode1 : ¬(("quality" : String) = "speed" ∧ (w > M ∨ h > M)) := by
      rintro ⟨hc, -⟩
      exact absurd hc (by decide)
    simp only [calculateOptimalSize]
    rw [if_neg hmode1, if_pos trivial]
  have hrw : min (M * 1.2 / w) (M * 1.2 / h) ≤ M * 1.2 / w := min_le_left _ _
  have hrh : min (M * 1.2 / w) (M * 1.2 / h) ≤ M * 1.2 / h := min_le_right _ _
  have hww : w * (M * 1.2 / w) = 1.2 * M := by field_simp; ring
  have hhh : h * (M * 1.2 / h) = 1.2 * M := by field_simp; ring
  by_cases hr : min (M * 1.2 / w) (M * 1.2 / h) < 1
  · have hfw : ((⌊w * min (M * 1.2 / w) (M * 1.2 / h)⌋ : ℚ)) ≤
        w * min (M * 1.2 / w) (M * 1.2 / h) := Int.floor_le _
    have hfh : ((⌊h * min (M * 1.2 / w) (M * 1.2 / h)⌋ : ℚ)) ≤
        h * min (M * 1.2 / w) (M * 1.2 / h) := Int.floor_le _
    have hbw : w * min (M * 1.2 / w) (M * 1.2 / h) ≤ w :=
      le_of_lt (by nlinarith)
    have hbh : h * min (M * 1.2 / w) (M * 1.2 / h) ≤ h :=
      le_of_lt (by nlinarith)
    have hcw : w * min (M * 1.2 / w) (M * 1.2 / h) ≤ 1.2 * M := by nlinarith
    have hch : h * min (M * 1.2 / w) (M * 1.2 / h) ≤ 1.2 * M := by nlinarith
    rw [hq, if_pos hr]
    exact ⟨fun _ => rfl, fun hc => absurd hr hc, le_trans hfw hbw, le_trans hfh hbh,
      le_trans hfw hcw, le_trans hfh hch⟩
  · have h1r : (1 : ℚ) ≤ min (M * 1.2 / w) (M * 1.2 / h) := not_lt.mp hr
    have hcw : w ≤ 1.2 * M := by nlinarith
    have hch : h ≤ 1.2 * M := by nlinarith
    rw [hq, if_neg hr]
    exact ⟨fun hc => absurd hc hr, fun _ => rfl, le_refl w, le_refl h, hcw, hch⟩

/-- Witness for C3 at the spec scenario: a 1000 by 1000 image with
`maxDimension = 2048` and strategy `quality` has ratio `2.4576`, not
below 1, so the dimensions stay 1000 by 1000. -/
theorem claim_C3_witness :
    calculateOptimalSize 1000 1000 2048 "quality" = ⟨1000, 1000⟩ :=
  (claim_C3_quality_caps 1000 1000 2048 (by norm_num) (by norm_num)).2.1
    (by norm_num [min_def])

/-- C4: for every image with an extreme aspect ratio
(`width / height > 2` or `width / height < 0.5`) the balanced (`smart`)
strategy scales by `r = min(maxDimension / width, maxDimension / height)`
only when `r < 1` and otherwise leaves the dimensions unchanged. -/
theorem claim_C4_balanced_extreme (w h M : ℚ) (hw : 0 < w) (hh : 0 < h)
    (hx : (w / h : ℚ) > 2 ∨ w / h < 0.5) :
    (min (M / w) (M / h) < 1 →
      calculateOptimalSize w h M "smart" =
        ⟨(⌊w * min (M / w) (M / h)⌋ : ℚ), (⌊h * min (M / w) (M / h)⌋ : ℚ)⟩) ∧
    (¬ min (M / w) (M / h) < 1 →
      calculateOptimalSize w h M "smart" = ⟨w, h⟩) := by
  have hmode1 : ¬(("smart" : String) = "speed" ∧ (w > M ∨ h > M)) := by
    rintro ⟨hc, -⟩
    exact absurd hc (by decide)
  have hmode2 : ¬(("smart" : String) = "quality") := by decide
  have hq : calculateOptimalSize w h M "smart" =
      if min (M / w) (M / h) < 1 then
        (⟨(⌊w * min (M / w) (M / h)⌋ : ℚ), (⌊h * min (M / w) (M / h)⌋ : ℚ)⟩ : Dimensions)
      else ⟨w, h⟩ := by
    simp only [calculateOptimalSize, if_neg hmode1, if_neg hmode2, if_pos hx]
  by_cases hr : min (M / w) (M / h) < 1
  · rw [hq, if_pos hr]
    exact ⟨fun _ => rfl, fun hc => absurd hr hc⟩
  · rw [hq, if_neg hr]
    exact ⟨fun hc => absurd hc hr, fun _ => rfl⟩

/-- Witness for C4 at the spec scenario: a 3000 by 500 image (aspect
ratio 6, extreme) with `maxDimension = 2048` has ratio `2048 / 3000 < 1`
and is scaled to 2048 by 341. -/
theorem claim_C4_witness :
    ((3000 : ℚ) / 500 > 2 ∨ (3000 : ℚ) / 500 < 0.5) ∧
    calculateOptimalSize 3000 500 2048 "smart" = ⟨2048, 341⟩ := by
  refine ⟨by norm_num, ?_⟩
  rw [(claim_C4_balanced_extreme 3000 500 2048 (by norm_num) (by norm_num)
    (by norm_num)).1 (by norm_num [min_def])]
  norm_num [min_def, Int.floor_eq_iff]

/-- C5, evaluation at the failing input: a 100 by 100 image with
`maxDimension = 2048` under strategy `speed` is not left unchanged. The
guard `mode === 'speed' && (width > maxSize || height > maxSize)` sends a
speed-mode image that is not oversized into the final else branch, whose
normal-aspect-ratio arm applies the ratio `20.48` unconditionally and
upscales to 2048 by 2048, contradicting both the spec's step for `speed`
and the source's own branch comments. -/
theorem claim_C5_speed_small_falls_through :
    calculateOptimalSize 100 100 2048 "speed" = ⟨2048, 2048⟩ ∧
    (⟨2048, 2048⟩ : Dimensions) ≠ ⟨100, 100⟩ := by
  constructor
  · norm_num [calculateOptimalSize, min_def]
    decide
  · decide

/-- Invariant of folding `updateMetrics` with metrics enabled: the count
grows by the batch length and the running average times the count grows
by the sum of the percentage reductions. -/
theorem runMetrics_invariant (cfg : Config) (hc : cfg.enableMetrics = true)
    (l : List (ℚ × ℚ)) :
    ∀ m : Metrics,
      (runMetrics cfg m l).processed = m.processed + l.length ∧
      (runMetrics cfg m l).avgCompressionRatio * ((m.processed : ℚ) + (l.length : ℚ)) =
        m.avgCompressionRatio * (m.processed : ℚ) +
          (l.map fun p => compressionPct p.1 p.2).sum := by
  induction l with
  | nil =>
    intro m
    simp [runMetrics]
  | cons p l ih =>
    intro m
    have hrun : runMetrics cfg m (p :: l) = runMetrics cfg (updateMetrics cfg m p.1 p.2) l := rfl
    have hm1p : (updateMetrics cfg m p.1 p.2).processed = m.processed + 1 := by
      simp [updateMetrics, hc]
    have hm1a : (updateMetrics cfg m p.1 p.2).avgCompressionRatio * ((m.processed : ℚ) + 1) =
        m.avgCompressionRatio * (m.processed : ℚ) + compressionPct p.1 p.2 := by
      have hne : ((m.processed : ℚ) + 1) ≠ 0 := by positivity
      simp only [updateMetrics, hc, Bool.not_true, if_false, compressionPct]
      push_cast
      field_simp
    obtain ⟨ihp, iha⟩ := ih (updateMetrics cfg m p.1 p.2)
    refine ⟨?_, ?_⟩
    · rw [hrun, ihp, hm1p, List.length_cons]
      omega
    · rw [hrun]
      have hm1pq : (((updateMetrics cfg m p.1 p.2).processed : ℕ) : ℚ) = (m.processed : ℚ) + 1 := by
        rw [hm1p]
        push_cast
        ring
      have hlen : ((m.processed : ℚ) + ((p :: l).length : ℚ)) =
          (((updateMetrics cfg m p.1 p.2).processed : ℕ) : ℚ) + (l.length : ℚ) := by
        rw [hm1pq, List.length_cons]
        push_cast
        ring
      rw [hlen, iha, hm1pq, hm1a, List.map_cons, List.sum_cons]
      ring

/-- C6: with metrics enabled, the statistics form a running count and a
running average updated by `avg = (avg * (n - 1) + pct) / n`, so after
processing a batch the count equals the batch length and the average
equals the arithmetic mean of the percentage reductions; and the
statistics are never used for control flow: the outcome of the resize
core is independent of the incoming metrics state. -/
theorem claim_C6_metrics_mean :
    (∀ (cfg : Config) (l : List (ℚ × ℚ)), cfg.enableMetrics = true →
      (∀ p ∈ l, 0 < p.1) →
      (runMetrics cfg initMetrics l).processed = l.length ∧
      (runMetrics cfg initMetrics l).avgCompressionRatio =
        ((l.map fun p => compressionPct p.1 p.2).sum) / (l.length : ℚ)) ∧
    (∀ (cfg : Config) (f : VFile) (d : Option ImgBitmap) (e : ℕ) (m1 m2 : Metrics),
      (resizeCore cfg f d e m1).1 = (resizeCore cfg f d e m2).1) := by
  constructor
  · intro cfg l hc _hpos
    obtain ⟨hp, ha⟩ := runMetrics_invariant cfg hc l initMetrics
    refine ⟨by simpa [initMetrics] using hp, ?_⟩
    rcases eq_or_ne l [] with rfl | hl
    · simp [runMetrics, initMetrics]
    · have hlen0 : l.length ≠ 0 := fun hz => hl (List.length_eq_zero.mp hz)
      have hlen : (l.length : ℚ) ≠ 0 := Nat.cast_ne_zero.mpr hlen0
      rw [eq_div_iff hlen]
      simpa [initMetrics] using ha
  · intro cfg f d e m1 m2
    simp only [resizeCore]
    cases FileValidator.validate cfg f <;> cases d <;> rfl

/-- Witness for C6 at the spec scenario: three reductions of 10, 20 and
30 percent (bytes 100 to 90, 100 to 80, 100 to 70) give count 3 and a
running average of exactly 20 percent. -/
theorem claim_C6_witness :
    (runMetrics pluginConfig initMetrics [(100, 90), (100, 80), (100, 70)]).processed = 3 ∧
    (runMetrics pluginConfig initMetrics [(100, 90), (100, 80), (100, 70)]).avgCompressionRatio
      = 20 := by
  obtain ⟨hp, ha⟩ :=
    claim_C6_metrics_mean.1 pluginConfig [(100, 90), (100, 80), (100, 70)] rfl (by norm_num)
  refine ⟨by simpa using hp, ?_⟩
  rw [ha]
  norm_num [compressionPct]

/-- C7: a file whose MIME type is outside the configured allow-list is
always rejected as `unsupportedFormat`, whatever the decode oracle would
have produced from its bytes; the trace records that decoding was never
attempted and the metrics are untouched. -/
theorem claim_C7_unsupported_mime_rejected (cfg : Config) (f : VFile)
    (d : Option ImgBitmap) (e : ℕ) (m : Metrics)
    (hmime : f.type ∉ cfg.formatSupport) :
    resizeCore cfg f d e m = (.error .unsupportedFormat, ⟨false, false, m⟩) := by
  have hv : FileValidator.validate cfg f = .error .unsupportedFormat := by
    by_cases hs : hasImageMime f.type = true
    · simp [FileValidator.validate, hs, hmime]
    · simp [FileValidator.validate, hs]
  simp [resizeCore, hv]

/-- Witness for C7: `image/tiff` is not in the default allow-list, so a
tiny decodable file of that type still fails with `unsupportedFormat`
and no decode is attempted. -/
theorem claim_C7_witness :
    ("image/tiff" ∉ pluginConfig.formatSupport) ∧
    resizeCore pluginConfig ⟨"image/tiff", 100⟩ (some ⟨4000, 2000⟩) 5 initMetrics =
      (.error .unsupportedFormat, ⟨false, false, initMetrics⟩) := by
  refine ⟨by decide, ?_⟩
  exact claim_C7_unsupported_mime_rejected pluginConfig ⟨"image/tiff", 100⟩
    (some ⟨4000, 2000⟩) 5 initMetrics (by decide)

/-- C8 as amended: a file with a supported MIME type whose byte length
exceeds `fileLimit` megabytes is rejected as `sizeLimitExceeded` with no
decode, no encode and the metrics state unchanged. -/
theorem claim_C8_oversize_supported_rejected (cfg : Config) (f : VFile)
    (d : Option ImgBitmap) (e : ℕ) (m : Metrics)
    (hs : hasImageMime f.type = true) (hmem : f.type ∈ cfg.formatSupport)
    (hsize : f.size > cfg.fileLimit * 1024 * 1024) :
    resizeCore cfg f d e m = (.error .sizeLimitExceeded, ⟨false, false, m⟩) := by
  have hv : FileValidator.validate cfg f = .error .sizeLimitExceeded := by
    simp [FileValidator.validate, hs, hmem, hsize]
  simp [resizeCore, hv]

/-- Counterexample to C8 as stated: a 30,000,000-byte file exceeds the
default 20 MB cap, yet with MIME type `text/plain` the pipeline fails
with `unsupportedFormat`, not `sizeLimitExceeded`, because the validator
checks the format before the size. -/
theorem claim_C8_counterexample :
    (30000000 : ℕ) > pluginConfig.fileLimit * 1024 * 1024 ∧
    (resizeCore pluginConfig ⟨"text/plain", 30000000⟩ (some ⟨4000, 2000⟩) 5 initMetrics).1 =
      .error .unsupportedFormat ∧
    BridgeError.unsupportedFormat ≠ BridgeError.sizeLimitExceeded := by
  refine ⟨by norm_num [pluginConfig], ?_, by decide⟩
  simp +decide [resizeCore, FileValidator.validate]

/-- Witness for C8 as amended: a 30,000,000-byte `image/jpeg` file under
the default configuration fails with `sizeLimitExceeded`, decoding never
starts, and the metrics are unchanged. -/
theorem claim_C8_witness :
    hasImageMime "image/jpeg" = true ∧ ("image/jpeg" ∈ pluginConfig.formatSupport) ∧
    (30000000 : ℕ) > pluginConfig.fileLimit * 1024 * 1024 ∧
    resizeCore pluginConfig ⟨"image/jpeg", 30000000⟩ (some ⟨4000, 2000⟩) 5 initMetrics =
      (.error .sizeLimitExceeded, ⟨false, false, initMetrics⟩) := by
  refine ⟨by decide, by decide, by norm_num [pluginConfig], ?_⟩
  exact claim_C8_oversize_supported_rejected pluginConfig ⟨"image/jpeg", 30000000⟩
    (some ⟨4000, 2000⟩) 5 initMetrics (by decide) (by decide) (by norm_num [pluginConfig])

/-- C9: every failure of the resize core is one of the structured error
kinds, each produced exactly under its defining condition: a MIME type
failing the image or allow-list checks gives `unsupportedFormat`, an
oversized supported file gives `sizeLimitExceeded`, a decode failure on a
valid file gives `decodeError`, and otherwise the call succeeds; no
failure path escapes this classification. -/
theorem claim_C9_failure_kinds (cfg : Config) (f : VFile) (d : Option ImgBitmap)
    (e : ℕ) (m : Metrics) :
    (¬ (hasImageMime f.type = true ∧ f.type ∈ cfg.formatSupport) →
      (resizeCore cfg f d e m).1 = .error .unsupportedFormat) ∧
    (hasImageMime f.type = true → f.type ∈ cfg.formatSupport →
      f.size > cfg.fileLimit * 1024 * 1024 →
      (resizeCore cfg f d e m).1 = .error .sizeLimitExceeded) ∧
    (hasImageMime f.type = true → f.type ∈ cfg.formatSupport →
      ¬ f.size > cfg.fileLimit * 1024 * 1024 → d = none →
      (resizeCore cfg f d e m).1 = .error .decodeError) ∧
    (∀ img : ImgBitmap, hasImageMime f.type = true → f.type ∈ cfg.formatSupport →
      ¬ f.size > cfg.fileLimit * 1024 * 1024 → d = some img →
      (resizeCore cfg f d e m).1 =
        .ok (calculateOptimalSize (img.width : ℚ) (img.height : ℚ)
          cfg.maxDimension cfg.optimizationMode)) := by
  refine ⟨?_, ?_, ?_, ?_⟩
  · intro hno
    have hv : FileValidator.validate cfg f = .error .unsupportedFormat := by
      by_cases hs : hasImageMime f.type = true
      · have hmem : f.type ∉ cfg.formatSupport := fun hm => hno ⟨hs, hm⟩
        simp [FileValidator.validate, hs, hmem]
      · simp [FileValidator.validate, hs]
    simp [resizeCore, hv]
  · intro hs hmem hsize
    have hv : FileValidator.validate cfg f = .error .sizeLimitExceeded := by
      simp [FileValidator.validate, hs, hmem, hsize]
    simp [resizeCore, hv]
  · intro hs hmem hsize hd
    subst hd
    have hv : FileValidator.validate cfg f = .ok () := by
      simp [FileValidator.validate, hs, hmem, hsize]
    simp [resizeCore, hv]
  · intro img hs hmem hsize hd
    subst hd
    have hv : FileValidator.validate cfg f = .ok () := by
      simp [FileValidator.validate, hs, hmem, hsize]
    simp [resizeCore, hv]

/-- Witness for C9: a small valid `image/png` file whose bytes fail to
decode is rejected as `decodeError`. -/
theorem claim_C9_witness :
    (resizeCore pluginConfig ⟨"image/png", 1000⟩ none 5 initMetrics).1 =
      .error .decodeError :=
  (claim_C9_failure_kinds pluginConfig ⟨"image/png", 1000⟩ none 5 initMetrics).2.2.1
    (by decide) (by decide) (by norm_num [pluginConfig]) rfl

/-- C10: with `enableMetrics` disabled, `updateMetrics` is a no-op: the
count, total saved and running average are all left unchanged. -/
theorem claim_C10_metrics_disabled_noop (cfg : Config) (m : Metrics) (o e : ℚ)
    (hc : cfg.enableMetrics = false) :
    updateMetrics cfg m o e = m := by
  simp [updateMetrics, hc]

/-- Witness for C10 at a concrete disabled configuration and a nonzero
metrics state. -/
theorem claim_C10_witness :
    updateMetrics { pluginConfig with enableMetrics := false } ⟨3, 50, 12⟩ 100 40 =
      (⟨3, 50, 12⟩ : Metrics) :=
  claim_C10_metrics_disabled_noop { pluginConfig with enableMetrics := false }
    ⟨3, 50, 12⟩ 100 40 rfl

end PopkoPhone
